import Mathlib

/-!
Verification development for `unicycle.py`, a script that caches monthly
bikeshare trip-log files, counts rides per (system, year, month), and merges
the counts with a national transit dataset.

The Python source is shallowly embedded: the filesystem is an association
list from paths to file contents (a file is its list of lines), the network
is a function from a remote key to an optional zip payload (a list of named
entries, `none` meaning a non-200 HTTP response), and functions that can
raise Python exceptions return `Option`.
-/

set_option maxRecDepth 4000

namespace Unicycle

/-! ### Decimal rendering, modelling Python `str(n)` and `str(n).zfill(2)` -/

/-- Decimal digit characters of `n`, most significant first; fuel-structural
so that it reduces definitionally. Models Python `str(n)` for `n ≥ 0`. -/
def natToDecAux : Nat → Nat → List Char
  | 0, _ => []
  | f + 1, n =>
    if n < 10 then [Nat.digitChar n]
    else natToDecAux f (n / 10) ++ [Nat.digitChar (n % 10)]

/-- Decimal digit characters of `n`, most significant first. -/
def natToDec (n : Nat) : List Char := natToDecAux (n + 1) n

/-- Python `str(n)` for a nonnegative integer `n`. -/
def decStr (n : Nat) : String := String.mk (natToDec n)

/-- Python `s.zfill(w)`: left-pad `s` with `'0'` up to width `w`. -/
def zfill (w : Nat) (s : String) : String :=
  String.mk (List.replicate (w - s.data.length) '0' ++ s.data)

/-- Evaluate a digit string back to a number (left inverse of `natToDec`). -/
def decVal (l : List Char) : Nat :=
  l.foldl (fun a c => 10 * a + (c.toNat - 48)) 0

/-! ### Paths and the provider registry -/

/-- Python `os.path.join(a, b)` for the joins appearing in the source: `b` is
a relative name, so the result is `a ++ "/" ++ b`, with no separator inserted
when `a` already ends in one. -/
def pathJoin (a b : String) : String :=
  if a.data.getLast? = some '/' then a ++ b else a ++ "/" ++ b

/-- Model of `SystemMetadata = namedtuple("SystemMetadata", ['uza', 's3_bucket', 'file_format'])`.
Every `file_format` template in the registry has the shape
`PRE ++ "{0}{1}" ++ SUF`, so the template is embedded as that pair of
literal pieces and `format(str(year), str(month).zfill(2))` becomes
`PRE ++ decStr year ++ zfill 2 (decStr month) ++ SUF`. -/
structure SystemMetadata where
  uza : String
  s3_bucket : String
  fmt_pre : String
  fmt_suf : String
deriving DecidableEq, Repr

/-- The static `SYSTEM_METADATA` dict of `unicycle.py`. -/
def SYSTEM_METADATA : List (String × SystemMetadata) :=
  [("baywheels",
     ⟨"San Francisco Bay Area, CA", "https://s3.amazonaws.com/baywheels-data/",
      "", "-baywheels-tripdata.csv.zip"⟩),
   ("nyc_citibike",
     ⟨"New York City, NY", "https://s3.amazonaws.com/tripdata/",
      "", "-citibike-tripdata.csv.zip"⟩),
   ("jc_citibike",
     ⟨"Jersey City, NJ", "https://s3.amazonaws.com/tripdata/",
      "JC-", "-citibike-tripdata.csv.zip"⟩),
   ("divvy",
     ⟨"Chicago, IL", "https://divvy-tripdata.s3.amazonaws.com/",
      "", "-divvy-tripdata.zip"⟩)]

/-- Python dict lookup `SYSTEM_METADATA[system_name]` (and `os.path.exists`
style lookups on the filesystem map): first matching key wins. -/
def alookup {α : Type} : List (String × α) → String → Option α
  | [], _ => none
  | (k, v) :: t, x => if k = x then some v else alookup t x

/-- Line 51, `filename = system_metadata.file_format.format(str(year), str(month).zfill(2))`
(also recomputed identically at line 95). -/
def lyftFilename (md : SystemMetadata) (year month : Nat) : String :=
  md.fmt_pre ++ decStr year ++ zfill 2 (decStr month) ++ md.fmt_suf

/-- The remote key resolved by `DownloadLyftSystemDataCache` (lines 52-57),
including the baywheels → fordgobike rename kludge. -/
def lyftRemoteKey (system_name : String) (md : SystemMetadata) (year month : Nat) : String :=
  if system_name = "baywheels" ∧ (year ≤ 2018 ∨ (year ≤ 2019 ∧ month ≤ 4)) then
    pathJoin md.s3_bucket (decStr year ++ zfill 2 (decStr month) ++ "-fordgobike-tripdata.csv.zip")
  else
    pathJoin md.s3_bucket (lyftFilename md year month)

/-- Line 66, `file_location = os.path.join("data_cache", system_name, filename)`
(also recomputed identically at line 96). Always uses the current-era
`filename`, never the kludge filename. -/
def lyftLocalPath (system_name : String) (md : SystemMetadata) (year month : Nat) : String :=
  pathJoin (pathJoin "data_cache" system_name) (lyftFilename md year month)

/-! ### The cache synchronizer and the ride counter -/

/-- A local filesystem: association list from path to file contents, a file
being its list of lines. Writing prepends; `alookup` finds the newest write. -/
abbrev FS := List (String × List String)

/-- The remote side: maps a key to `none` (non-200 HTTP status) or to the
list of entries of the zip archive in the response body, each entry a
(name, lines) pair. -/
abbrev Remote := String → Option (List (String × List String))

/-- Lines 49-81, `DownloadLyftSystemDataCache(system_name, year, month)`.
Result `none` models an uncaught Python exception (`KeyError` for an unknown
system, `IndexError` from `namelist()[0]` on an empty archive); otherwise
`some (ret, networkAccessed, fs')` gives the returned int (`0` success /
already present, `-1` retrieval error), whether an HTTP GET was issued, and
the filesystem after the call. -/
def DownloadLyftSystemDataCache (remote : Remote) (fs : FS)
    (system_name : String) (year month : Nat) : Option (Int × Bool × FS) :=
  match alookup SYSTEM_METADATA system_name with
  | none => none
  | some md =>
    let key := lyftRemoteKey system_name md year month
    let file_location := lyftLocalPath system_name md year month
    if (alookup fs file_location).isSome then
      some (0, false, fs)
    else
      match remote key with
      | none => some (-1, true, fs)
      | some [] => none
      | some ((_, content) :: _) => some (0, true, (file_location, content) :: fs)

/-- Lines 92-100, `CountLyftRides(system_name, year, month)`: `0` when the
cache file is absent, otherwise the number of lines minus one (the header).
Result `none` models the `KeyError` on an unknown system. -/
def CountLyftRides (registry : List (String × SystemMetadata)) (fs : FS)
    (system_name : String) (year month : Nat) : Option Int :=
  match alookup registry system_name with
  | none => none
  | some md =>
    match alookup fs (lyftLocalPath system_name md year month) with
    | none => some 0
    | some lines => some ((lines.length : Int) - 1)

/-! ### The aggregator -/

/-- A cell value in a table: the `Agency` / `UZA Name` labels are strings,
the per-month counts integers. -/
inductive Value where
  | str (s : String)
  | int (n : Int)
deriving DecidableEq, Repr

/-- Python dict insertion `d[k] = v`: overwrite in place when the key is
already present, else append at the end (dicts preserve insertion order). -/
def dictInsert (r : List (String × Value)) (k : String) (v : Value) :
    List (String × Value) :=
  if r.any (fun p => p.1 == k) then r.map (fun p => if p.1 == k then (k, v) else p)
  else r ++ [(k, v)]

/-- Python `d.strftime("%b").upper()` for a timestamp in month `m` (1-12). -/
def monthAbbrev : Nat → String
  | 1 => "JAN"
  | 2 => "FEB"
  | 3 => "MAR"
  | 4 => "APR"
  | 5 => "MAY"
  | 6 => "JUN"
  | 7 => "JUL"
  | 8 => "AUG"
  | 9 => "SEP"
  | 10 => "OCT"
  | 11 => "NOV"
  | 12 => "DEC"
  | _ => ""

/-- Line 108, `column_name = d.strftime("%b").upper() + d.strftime("%y")`:
3-letter uppercase month abbreviation followed by the zero-padded 2-digit
year. -/
def monthLabel (year month : Nat) : String :=
  monthAbbrev month ++ zfill 2 (decStr (year % 100))

/-- Lines 102-110, `CountAllLyftRides(date_range)`, with the global
`SYSTEM_METADATA` dict and the filesystem as explicit parameters; a date is
a (year, month) pair. Each system's entry is built by dict insertion
starting from the `Agency` and `UZA Name` fields. The iterated keys come
from the registry itself, so the registry lookup inside `CountLyftRides`
always succeeds and its `KeyError` case (`getD`) is unreachable. -/
def CountAllLyftRides (registry : List (String × SystemMetadata)) (fs : FS)
    (date_range : List (Nat × Nat)) : List (String × List (String × Value)) :=
  registry.map (fun e =>
    (e.1, date_range.foldl
      (fun r d => dictInsert r (monthLabel d.1 d.2)
        (Value.int ((CountLyftRides registry fs e.1 d.1 d.2).getD 0)))
      [("Agency", Value.str e.1), ("UZA Name", Value.str e.2.uza)]))

/-- A pandas DataFrame, abstracted to what `pd.concat` needs: a list of
column labels and a list of rows, each row an association list from column
label to value. -/
structure PandasDF where
  cols : List String
  rows : List (List (String × Value))
deriving DecidableEq, Repr

/-- Line 118, `pd.concat([a, b], join="inner")`: the result keeps the
columns common to both frames (in the first frame's order) and concatenates
the rows of the two frames, each row restricted to the shared columns. -/
def pdConcatInner (a b : PandasDF) : PandasDF :=
  { cols := a.cols.filter (fun c => b.cols.contains c),
    rows := (a.rows ++ b.rows).map (fun r =>
      (a.cols.filter (fun c => b.cols.contains c)).filterMap
        (fun c => (alookup r c).map (fun v => (c, v)))) }

/-- Line 117, `pd.DataFrame(bike_counts).transpose()`: the transposed frame
has one row per outer key (system), and its columns are the union of the
inner dict keys in first-seen order. -/
def bikeCountsToDF (bike_counts : List (String × List (String × Value))) :
    PandasDF :=
  { cols := bike_counts.foldl
      (fun acc e => e.2.foldl
        (fun acc2 kv => if acc2.contains kv.1 then acc2 else acc2 ++ [kv.1]) acc) [],
    rows := bike_counts.map Prod.snd }

/-- Lines 112-118, `AugmentDataset(ntd_df, bike_counts)`. -/
def AugmentDataset (ntd_df : PandasDF)
    (bike_counts : List (String × List (String × Value))) : PandasDF :=
  pdConcatInner ntd_df (bikeCountsToDF bike_counts)

/-! ### Lemmas about decimal rendering -/

/-- Fuel does not matter once it exceeds the argument. -/
theorem natToDecAux_irrel (n : Nat) :
    ∀ f1 f2, n < f1 → n < f2 → natToDecAux f1 n = natToDecAux f2 n := by
  induction n using Nat.strong_induction_on with
  | _ n ih =>
    intro f1 f2 h1 h2
    match f1, f2 with
    | g1 + 1, g2 + 1 =>
      by_cases h : n < 10
      · simp [natToDecAux, h]
      · have hd : n / 10 < n := Nat.div_lt_self (by omega) (by omega)
        simp only [natToDecAux, h, if_false]
        rw [ih (n / 10) hd g1 g2 (by omega) (by omega)]

/-- The recurrence satisfied by `natToDec`. -/
theorem natToDec_eq (n : Nat) :
    natToDec n = if n < 10 then [Nat.digitChar n]
      else natToDec (n / 10) ++ [Nat.digitChar (n % 10)] := by
  show natToDecAux (n + 1) n = _
  by_cases h : n < 10
  · simp [natToDecAux, h]
  · have hd : n / 10 < n := Nat.div_lt_self (by omega) (by omega)
    simp only [natToDecAux, h, if_false]
    rw [natToDecAux_irrel (n / 10) n (n / 10 + 1) hd (Nat.lt_succ_self _)]
    rfl

/-- Character value of a decimal digit. -/
theorem digitChar_toNat (d : Nat) (h : d < 10) : (Nat.digitChar d).toNat = 48 + d := by
  interval_cases d <;> rfl

theorem decVal_append_singleton (l : List Char) (c : Char) :
    decVal (l ++ [c]) = 10 * decVal l + (c.toNat - 48) := by
  simp [decVal, List.foldl_append]

/-- Evaluating the rendered digits recovers the number. -/
theorem decVal_natToDec (n : Nat) : decVal (natToDec n) = n := by
  induction n using Nat.strong_induction_on with
  | _ n ih =>
    rw [natToDec_eq]
    by_cases h : n < 10
    · simp [h, decVal, digitChar_toNat n h]
    · have hd : n / 10 < n := Nat.div_lt_self (by omega) (by omega)
      simp only [h, if_false]
      rw [decVal_append_singleton, ih (n / 10) hd,
        digitChar_toNat (n % 10) (Nat.mod_lt _ (by omega))]
      omega

theorem natToDec_inj {a b : Nat} (h : natToDec a = natToDec b) : a = b := by
  have h2 := congrArg decVal h
  rwa [decVal_natToDec, decVal_natToDec] at h2

theorem natToDec_length_le (n : Nat) (h : n < 100) : (natToDec n).length ≤ 2 := by
  rw [natToDec_eq]
  by_cases h1 : n < 10
  · simp [h1]
  · have h2 : n / 10 < 10 := by omega
    simp only [h1, if_false, List.length_append]
    rw [natToDec_eq]
    simp [h2]

theorem zfill2_decStr_length (m : Nat) (h : m < 100) :
    (zfill 2 (decStr m)).data.length = 2 := by
  have h2 := natToDec_length_le m h
  show (List.replicate (2 - (natToDec m).length) '0' ++ natToDec m).length = 2
  simp only [List.length_append, List.length_replicate]
  omega

theorem decVal_cons_zero (l : List Char) : decVal ('0' :: l) = decVal l := by
  show List.foldl _ (10 * 0 + ('0'.toNat - 48)) l = List.foldl _ 0 l
  rw [show (10 * 0 + ('0'.toNat - 48) : Nat) = 0 from by decide]

theorem decVal_replicate_zero (k : Nat) (l : List Char) :
    decVal (List.replicate k '0' ++ l) = decVal l := by
  induction k with
  | zero => simp
  | succ k ih => simpa [List.replicate_succ, decVal_cons_zero] using ih

/-- Evaluating a zero-padded rendering also recovers the number. -/
theorem decVal_zfill2_decStr (m : Nat) : decVal (zfill 2 (decStr m)).data = m := by
  show decVal (List.replicate _ '0' ++ natToDec m) = m
  rw [decVal_replicate_zero, decVal_natToDec]

theorem zfill2_decStr_inj {a b : Nat}
    (h : (zfill 2 (decStr a)).data = (zfill 2 (decStr b)).data) : a = b := by
  have h2 := congrArg decVal h
  rwa [decVal_zfill2_decStr, decVal_zfill2_decStr] at h2

/-! ### Lemmas about strings and paths -/

theorem string_data_append (s t : String) : (s ++ t).data = s.data ++ t.data := rfl

theorem string_ext {s t : String} (h : s.data = t.data) : s = t := by
  cases s; cases t; exact congrArg String.mk h

/-- Character lists agree on any window covered by both left parts. -/
theorem take_eq_of_append_eq {l1 l2 r1 r2 : List Char} (k : Nat)
    (h : l1 ++ r1 = l2 ++ r2) (h1 : k ≤ l1.length) (h2 : k ≤ l2.length) :
    l1.take k = l2.take k := by
  have h3 := congrArg (List.take k) h
  rwa [List.take_append_of_le_length h1, List.take_append_of_le_length h2] at h3

/-- Injectivity of the numeric middle of a filename: the month block has
fixed width 2, so the split into year digits and month digits is unique. -/
theorem yearMonth_inj (suf : List Char) {y1 m1 y2 m2 : Nat}
    (hm1 : m1 < 100) (hm2 : m2 < 100)
    (h : natToDec y1 ++ ((zfill 2 (decStr m1)).data ++ suf)
       = natToDec y2 ++ ((zfill 2 (decStr m2)).data ++ suf)) :
    y1 = y2 ∧ m1 = m2 := by
  have hlen : (natToDec y1).length = (natToDec y2).length := by
    have h3 := congrArg List.length h
    simp only [List.length_append, zfill2_decStr_length m1 hm1,
      zfill2_decStr_length m2 hm2] at h3
    omega
  obtain ⟨hy, hz⟩ := List.append_inj h hlen
  refine ⟨natToDec_inj hy, zfill2_decStr_inj (List.append_cancel_right hz)⟩

theorem decStr_data (n : Nat) : (decStr n).data = natToDec n := rfl

theorem pathJoin_slash (a b : String) (h : a.data.getLast? = some '/') :
    pathJoin a b = a ++ b := by
  simp [pathJoin, h]

theorem pathJoin_noslash (a b : String) (h : ¬a.data.getLast? = some '/') :
    pathJoin a b = a ++ "/" ++ b := by
  simp [pathJoin, h]

/-- Decomposition of a local cache path into its character list, for any
system name that does not itself end in a slash. -/
theorem lyftLocalPath_data (n : String) (md : SystemMetadata) (y m : Nat)
    (hn : ¬("data_cache" ++ "/" ++ n).data.getLast? = some '/') :
    (lyftLocalPath n md y m).data
      = ("data_cache" ++ "/" ++ n ++ "/").data
        ++ (md.fmt_pre.data
            ++ (natToDec y ++ ((zfill 2 (decStr m)).data ++ md.fmt_suf.data))) := by
  rw [lyftLocalPath, pathJoin_noslash "data_cache" n (by decide), pathJoin_noslash _ _ hn,
    lyftFilename]
  simp [string_data_append, decStr_data, List.append_assoc]

/-- Enumeration of the registry: a successful lookup comes from one of the
four systems. -/
theorem alookup_SYSTEM_METADATA_cases {n : String} {md : SystemMetadata}
    (h : alookup SYSTEM_METADATA n = some md) :
    (n = "baywheels" ∧ md = ⟨"San Francisco Bay Area, CA",
      "https://s3.amazonaws.com/baywheels-data/", "", "-baywheels-tripdata.csv.zip"⟩) ∨
    (n = "nyc_citibike" ∧ md = ⟨"New York City, NY",
      "https://s3.amazonaws.com/tripdata/", "", "-citibike-tripdata.csv.zip"⟩) ∨
    (n = "jc_citibike" ∧ md = ⟨"Jersey City, NJ",
      "https://s3.amazonaws.com/tripdata/", "JC-", "-citibike-tripdata.csv.zip"⟩) ∨
    (n = "divvy" ∧ md = ⟨"Chicago, IL",
      "https://divvy-tripdata.s3.amazonaws.com/", "", "-divvy-tripdata.zip"⟩) := by
  simp only [SYSTEM_METADATA, alookup] at h
  split_ifs at h with e1 e2 e3 e4 <;>
    simp only [Option.some.injEq] at h
  · exact Or.inl ⟨e1.symm, h.symm⟩
  · exact Or.inr (Or.inl ⟨e2.symm, h.symm⟩)
  · exact Or.inr (Or.inr (Or.inl ⟨e3.symm, h.symm⟩))
  · exact Or.inr (Or.inr (Or.inr ⟨e4.symm, h.symm⟩))

/-! ### Claim C1: idempotence of the cache synchronizer -/

/-- Claim C1: when the local cache file for a (provider, year, month)
already exists, `DownloadLyftSystemDataCache` performs no network access
and leaves the filesystem unchanged (returning 0); hence running it twice
is equivalent to running it once with respect to the local filesystem. -/
theorem claim1_ensureCached_idempotent (remote : Remote) (fs : FS)
    (system_name : String) (year month : Nat) (md : SystemMetadata)
    (hmd : alookup SYSTEM_METADATA system_name = some md)
    (hex : (alookup fs (lyftLocalPath system_name md year month)).isSome) :
    DownloadLyftSystemDataCache remote fs system_name year month
      = some (0, false, fs) ∧
    (DownloadLyftSystemDataCache remote fs system_name year month).bind
        (fun r => DownloadLyftSystemDataCache remote r.2.2 system_name year month)
      = DownloadLyftSystemDataCache remote fs system_name year month := by
  have h1 : DownloadLyftSystemDataCache remote fs system_name year month
      = some (0, false, fs) := by
    simp [DownloadLyftSystemDataCache, hmd, hex]
  exact ⟨h1, by rw [h1]; simpa using h1⟩

/-- Witness for C1 at a concrete already-cached input. -/
theorem claim1_witness :
    DownloadLyftSystemDataCache (fun _ => none)
        [("data_cache/divvy/202006-divvy-tripdata.zip", ["h", "r"])] "divvy" 2020 6
      = some (0, false, [("data_cache/divvy/202006-divvy-tripdata.zip", ["h", "r"])]) :=
  (claim1_ensureCached_idempotent (fun _ => none)
    [("data_cache/divvy/202006-divvy-tripdata.zip", ["h", "r"])] "divvy" 2020 6
    ⟨"Chicago, IL", "https://divvy-tripdata.s3.amazonaws.com/", "", "-divvy-tripdata.zip"⟩
    (by decide) (by decide)).1

/-! ### Claim C2: the baywheels rebrand boundary -/

/-- Claim C2: the baywheels remote key uses the historical fordgobike
filename exactly when year < 2019 or (year = 2019 and month ≤ 4); in
particular 2019-04 resolves to the historical remote key and 2019-05 to the
current-era remote key, while both months resolve to local paths built from
the current-era filename. -/
theorem claim2_baywheels_rebrand (md : SystemMetadata)
    (hmd : alookup SYSTEM_METADATA "baywheels" = some md) :
    (∀ year month : Nat,
      lyftRemoteKey "baywheels" md year month
        = if year < 2019 ∨ (year = 2019 ∧ month ≤ 4)
          then pathJoin md.s3_bucket
            (decStr year ++ zfill 2 (decStr month) ++ "-fordgobike-tripdata.csv.zip")
          else pathJoin md.s3_bucket (lyftFilename md year month)) ∧
    lyftRemoteKey "baywheels" md 2019 4
      = "https://s3.amazonaws.com/baywheels-data/201904-fordgobike-tripdata.csv.zip" ∧
    lyftRemoteKey "baywheels" md 2019 5
      = "https://s3.amazonaws.com/baywheels-data/201905-baywheels-tripdata.csv.zip" ∧
    lyftLocalPath "baywheels" md 2019 4
      = "data_cache/baywheels/201904-baywheels-tripdata.csv.zip" ∧
    lyftLocalPath "baywheels" md 2019 5
      = "data_cache/baywheels/201905-baywheels-tripdata.csv.zip" := by
  have h0 : alookup SYSTEM_METADATA "baywheels"
      = some ⟨"San Francisco Bay Area, CA", "https://s3.amazonaws.com/baywheels-data/",
        "", "-baywheels-tripdata.csv.zip"⟩ := by decide
  rw [h0] at hmd
  injection hmd with hmd'
  subst hmd'
  refine ⟨fun year month => ?_, by decide, by decide, by decide, by decide⟩
  have hiff : ("baywheels" = "baywheels" ∧ (year ≤ 2018 ∨ (year ≤ 2019 ∧ month ≤ 4)))
      ↔ (year < 2019 ∨ (year = 2019 ∧ month ≤ 4)) := by
    constructor
    · rintro ⟨-, hy⟩; omega
    · intro hy; exact ⟨rfl, by omega⟩
  rw [lyftRemoteKey, if_congr hiff rfl rfl]

/-- Witness for C2 (its registry-lookup hypothesis discharged). -/
theorem claim2_witness :
    lyftRemoteKey "baywheels"
        ⟨"San Francisco Bay Area, CA", "https://s3.amazonaws.com/baywheels-data/",
          "", "-baywheels-tripdata.csv.zip"⟩ 2019 4
      = "https://s3.amazonaws.com/baywheels-data/201904-fordgobike-tripdata.csv.zip" :=
  (claim2_baywheels_rebrand
    ⟨"San Francisco Bay Area, CA", "https://s3.amazonaws.com/baywheels-data/",
      "", "-baywheels-tripdata.csv.zip"⟩ (by decide)).2.1

/-! ### Claim C3: the written path is the read path -/

/-- Claim C3: a successful fetch writes exactly one file, at the local path
built from the current-era filename (`data_cache/<provider>/<filename>`,
regardless of which remote variant was fetched), and `CountLyftRides`
resolves the same path, so a subsequent count finds the cached entry. -/
theorem claim3_write_read_same_path (remote : Remote) (fs : FS)
    (system_name : String) (year month : Nat) (md : SystemMetadata)
    (entryName : String) (content : List String) (rest : List (String × List String))
    (hmd : alookup SYSTEM_METADATA system_name = some md)
    (habs : alookup fs (lyftLocalPath system_name md year month) = none)
    (hrem : remote (lyftRemoteKey system_name md year month)
      = some ((entryName, content) :: rest)) :
    DownloadLyftSystemDataCache remote fs system_name year month
      = some (0, true, (lyftLocalPath system_name md year month, content) :: fs) ∧
    lyftLocalPath system_name md year month
      = pathJoin (pathJoin "data_cache" system_name) (lyftFilename md year month) ∧
    CountLyftRides SYSTEM_METADATA
        ((lyftLocalPath system_name md year month, content) :: fs)
        system_name year month
      = some ((content.length : Int) - 1) := by
  refine ⟨?_, rfl, ?_⟩
  · simp [DownloadLyftSystemDataCache, hmd, habs, hrem]
  · simp only [CountLyftRides, hmd]
    simp [alookup]

/-- Witness for C3 at a kludge-era baywheels month: the remote key is the
historical fordgobike one, the local path the current-era baywheels one,
and the count reads the file back. -/
theorem claim3_witness :
    DownloadLyftSystemDataCache
        (fun k =>
          if k = "https://s3.amazonaws.com/baywheels-data/201903-fordgobike-tripdata.csv.zip"
          then some [("201903-fordgobike-tripdata.csv", ["hdr", "r1", "r2"])] else none)
        [] "baywheels" 2019 3
      = some (0, true,
          [("data_cache/baywheels/201903-baywheels-tripdata.csv.zip", ["hdr", "r1", "r2"])]) ∧
    CountLyftRides SYSTEM_METADATA
        [("data_cache/baywheels/201903-baywheels-tripdata.csv.zip", ["hdr", "r1", "r2"])]
        "baywheels" 2019 3
      = some 2 := by
  have h := claim3_write_read_same_path
    (fun k =>
      if k = "https://s3.amazonaws.com/baywheels-data/201903-fordgobike-tripdata.csv.zip"
      then some [("201903-fordgobike-tripdata.csv", ["hdr", "r1", "r2"])] else none)
    [] "baywheels" 2019 3
    ⟨"San Francisco Bay Area, CA", "https://s3.amazonaws.com/baywheels-data/",
      "", "-baywheels-tripdata.csv.zip"⟩
    "201903-fordgobike-tripdata.csv" ["hdr", "r1", "r2"] []
    (by decide) (by decide) (by decide)
  exact ⟨h.1, h.2.2⟩

/-! ### Claim C4: counting an absent entry -/

/-- Claim C4: for a provider in the registry, `CountLyftRides` on an absent
cache entry returns exactly 0 and never signals an error. -/
theorem claim4_countRides_absent_zero (fs : FS) (system_name : String)
    (year month : Nat) (md : SystemMetadata)
    (hmd : alookup SYSTEM_METADATA system_name = some md)
    (habs : alookup fs (lyftLocalPath system_name md year month) = none) :
    CountLyftRides SYSTEM_METADATA fs system_name year month = some 0 := by
  simp [CountLyftRides, hmd, habs]

/-- Witness for C4 on the empty filesystem. -/
theorem claim4_witness :
    CountLyftRides SYSTEM_METADATA [] "nyc_citibike" 2020 6 = some 0 :=
  claim4_countRides_absent_zero [] "nyc_citibike" 2020 6
    ⟨"New York City, NY", "https://s3.amazonaws.com/tripdata/",
      "", "-citibike-tripdata.csv.zip"⟩ (by decide) (by decide)

/-! ### Claim C5: counting a present entry -/

/-- Claim C5: for a present cache file, `CountLyftRides` returns the total
number of lines in the file minus exactly one. -/
theorem claim5_countRides_lines_minus_one (fs : FS) (system_name : String)
    (year month : Nat) (md : SystemMetadata) (lines : List String)
    (hmd : alookup SYSTEM_METADATA system_name = some md)
    (hpres : alookup fs (lyftLocalPath system_name md year month) = some lines) :
    CountLyftRides SYSTEM_METADATA fs system_name year month
      = some ((lines.length : Int) - 1) := by
  simp [CountLyftRides, hmd, hpres]

/-- Witness for C5: a cached file of 501 lines (1 header plus 500 data
rows) yields a count of 500. -/
theorem claim5_witness :
    CountLyftRides SYSTEM_METADATA
        [("data_cache/divvy/202006-divvy-tripdata.zip", "header" :: List.replicate 500 "row")]
        "divvy" 2020 6
      = some 500 := by
  have h := claim5_countRides_lines_minus_one
    [("data_cache/divvy/202006-divvy-tripdata.zip", "header" :: List.replicate 500 "row")]
    "divvy" 2020 6
    ⟨"Chicago, IL", "https://divvy-tripdata.s3.amazonaws.com/", "", "-divvy-tripdata.zip"⟩
    ("header" :: List.replicate 500 "row") (by decide) (by decide)
  simpa using h

/-! ### Claim C6: outcome signalling of the cache synchronizer -/

/-- Counterexample to claim C6 as stated: at concrete inputs, an
already-present call (no network access, no write) and a fresh successful
download (network access, file written) both return 0, so the three
outcomes are not mutually distinguishable through the function's return
value; only the error case (-1) is. -/
theorem claim6_counterexample :
    (DownloadLyftSystemDataCache (fun _ => none)
        [("data_cache/divvy/202006-divvy-tripdata.zip", ["h"])] "divvy" 2020 6).map Prod.fst
      = some 0 ∧
    (DownloadLyftSystemDataCache
        (fun k => if k = "https://divvy-tripdata.s3.amazonaws.com/202006-divvy-tripdata.zip"
          then some [("202006-divvy-tripdata.csv", ["h"])] else none)
        [] "divvy" 2020 6).map Prod.fst
      = some 0 ∧
    (DownloadLyftSystemDataCache (fun _ => none) [] "divvy" 2020 6).map Prod.fst
      = some (-1) := by
  refine ⟨by decide, by decide, by decide⟩

/-- Claim C6 as amended: the three outcomes exist but share return values:
already-present returns 0 with no network access and no write; a non-200
response returns -1 with no file written; a fresh successful download also
returns 0, with the file written — so AlreadyPresent and Fetched are
distinguishable only by side effects, not by the returned value. -/
theorem claim6_outcomes (remote : Remote) (fs : FS)
    (system_name : String) (year month : Nat) (md : SystemMetadata)
    (hmd : alookup SYSTEM_METADATA system_name = some md) :
    ((alookup fs (lyftLocalPath system_name md year month)).isSome →
      DownloadLyftSystemDataCache remote fs system_name year month
        = some (0, false, fs)) ∧
    (alookup fs (lyftLocalPath system_name md year month) = none →
      remote (lyftRemoteKey system_name md year month) = none →
      DownloadLyftSystemDataCache remote fs system_name year month
        = some (-1, true, fs)) ∧
    (∀ entryName content rest,
      alookup fs (lyftLocalPath system_name md year month) = none →
      remote (lyftRemoteKey system_name md year month)
        = some ((entryName, content) :: rest) →
      DownloadLyftSystemDataCache remote fs system_name year month
        = some (0, true, (lyftLocalPath system_name md year month, content) :: fs)) := by
  refine ⟨fun hex => ?_, fun habs hrem => ?_, fun e c r habs hrem => ?_⟩
  · simp [DownloadLyftSystemDataCache, hmd, hex]
  · simp [DownloadLyftSystemDataCache, hmd, habs, hrem]
  · simp [DownloadLyftSystemDataCache, hmd, habs, hrem]

/-- Witness for the amended C6, exercising all three outcomes concretely. -/
theorem claim6_witness :
    DownloadLyftSystemDataCache (fun _ => none)
        [("data_cache/divvy/202006-divvy-tripdata.zip", ["h"])] "divvy" 2020 6
      = some (0, false, [("data_cache/divvy/202006-divvy-tripdata.zip", ["h"])]) ∧
    DownloadLyftSystemDataCache (fun _ => none) [] "divvy" 2020 6
      = some (-1, true, []) ∧
    DownloadLyftSystemDataCache
        (fun k => if k = "https://divvy-tripdata.s3.amazonaws.com/202006-divvy-tripdata.zip"
          then some [("202006-divvy-tripdata.csv", ["h", "r"])] else none)
        [] "divvy" 2020 6
      = some (0, true, [("data_cache/divvy/202006-divvy-tripdata.zip", ["h", "r"])]) := by
  refine ⟨(claim6_outcomes (fun _ => none)
      [("data_cache/divvy/202006-divvy-tripdata.zip", ["h"])] "divvy" 2020 6
      ⟨"Chicago, IL", "https://divvy-tripdata.s3.amazonaws.com/", "", "-divvy-tripdata.zip"⟩
      (by decide)).1 (by decide),
    (claim6_outcomes (fun _ => none) [] "divvy" 2020 6
      ⟨"Chicago, IL", "https://divvy-tripdata.s3.amazonaws.com/", "", "-divvy-tripdata.zip"⟩
      (by decide)).2.1 (by decide) (by decide),
    (claim6_outcomes
      (fun k => if k = "https://divvy-tripdata.s3.amazonaws.com/202006-divvy-tripdata.zip"
        then some [("202006-divvy-tripdata.csv", ["h", "r"])] else none)
      [] "divvy" 2020 6
      ⟨"Chicago, IL", "https://divvy-tripdata.s3.amazonaws.com/", "", "-divvy-tripdata.zip"⟩
      (by decide)).2.2 "202006-divvy-tripdata.csv" ["h", "r"] [] (by decide) (by decide)⟩

/-! ### Claim C10: a present but empty file -/

/-- Claim C10: a present cache file with zero lines yields a count of -1 —
the lines-minus-header result is not clamped at zero — unlike an absent
file, which yields 0. -/
theorem claim10_empty_file_negative (fs : FS) (system_name : String)
    (year month : Nat) (md : SystemMetadata)
    (hmd : alookup SYSTEM_METADATA system_name = some md)
    (hpres : alookup fs (lyftLocalPath system_name md year month) = some []) :
    CountLyftRides SYSTEM_METADATA fs system_name year month = some (-1) := by
  simp [CountLyftRides, hmd, hpres]

/-- Witness for C10 with a concrete empty cached file. -/
theorem claim10_witness :
    CountLyftRides SYSTEM_METADATA
        [("data_cache/divvy/202006-divvy-tripdata.zip", [])] "divvy" 2020 6
      = some (-1) :=
  claim10_empty_file_negative
    [("data_cache/divvy/202006-divvy-tripdata.zip", [])] "divvy" 2020 6
    ⟨"Chicago, IL", "https://divvy-tripdata.s3.amazonaws.com/", "", "-divvy-tripdata.zip"⟩
    (by decide) (by decide)

/-! ### Claim C7: the column-inner merge -/

/-- Claim C7: the aggregator merge keeps exactly the columns present in
both the reference dataset and the generated table and concatenates their
rows: with reference columns A,B,C and generated columns B,C,D, the merged
table has columns B,C and its row count is rows(reference) plus
rows(generated). -/
theorem claim7_merge_inner_columns (ntd : PandasDF)
    (bike_counts : List (String × List (String × Value)))
    (h1 : ntd.cols = ["A", "B", "C"])
    (h2 : (bikeCountsToDF bike_counts).cols = ["B", "C", "D"]) :
    (AugmentDataset ntd bike_counts).cols = ["B", "C"] ∧
    (AugmentDataset ntd bike_counts).rows.length
      = ntd.rows.length + bike_counts.length := by
  constructor
  · show ntd.cols.filter _ = _
    rw [h1, h2]
    decide
  · simp [AugmentDataset, pdConcatInner, bikeCountsToDF]

/-- Witness for C7 on concrete one-row frames. -/
theorem claim7_witness :
    (AugmentDataset
        ⟨["A", "B", "C"], [[("A", Value.int 1), ("B", Value.int 2), ("C", Value.int 3)]]⟩
        [("sys", [("B", Value.int 4), ("C", Value.int 5), ("D", Value.int 6)])]).cols
      = ["B", "C"] ∧
    (AugmentDataset
        ⟨["A", "B", "C"], [[("A", Value.int 1), ("B", Value.int 2), ("C", Value.int 3)]]⟩
        [("sys", [("B", Value.int 4), ("C", Value.int 5), ("D", Value.int 6)])]).rows.length
      = 1 + 1 :=
  claim7_merge_inner_columns
    ⟨["A", "B", "C"], [[("A", Value.int 1), ("B", Value.int 2), ("C", Value.int 3)]]⟩
    [("sys", [("B", Value.int 4), ("C", Value.int 5), ("D", Value.int 6)])]
    (by decide) (by decide)

/-! ### Claim C8: the shape of the ride-count table -/

theorem dictInsert_fresh (r : List (String × Value)) (k : String) (v : Value)
    (h : ∀ p ∈ r, p.1 ≠ k) : dictInsert r k v = r ++ [(k, v)] := by
  have ha : r.any (fun p => p.1 == k) = false := by
    rw [List.any_eq_false]
    intro p hp
    simpa using h p hp
  simp [dictInsert, ha]

/-- Folding distinct fresh month labels into a dict appends one field per
label, in order. -/
theorem foldl_dictInsert_keys (val : Nat × Nat → Value) (dates : List (Nat × Nat))
    (r : List (String × Value))
    (hfresh : ∀ d ∈ dates, ∀ p ∈ r, p.1 ≠ monthLabel d.1 d.2)
    (hnodup : (dates.map (fun d => monthLabel d.1 d.2)).Nodup) :
    (dates.foldl (fun acc d => dictInsert acc (monthLabel d.1 d.2) (val d)) r).map Prod.fst
      = r.map Prod.fst ++ dates.map (fun d => monthLabel d.1 d.2) := by
  induction dates generalizing r with
  | nil => simp
  | cons d ds ih =>
    have h1 : ∀ p ∈ r, p.1 ≠ monthLabel d.1 d.2 := fun p hp => hfresh d (by simp) p hp
    have hnd : monthLabel d.1 d.2 ∉ ds.map (fun d => monthLabel d.1 d.2) ∧
        (ds.map (fun d => monthLabel d.1 d.2)).Nodup :=
      List.nodup_cons.mp (by simpa only [List.map_cons] using hnodup)
    rw [List.foldl_cons, dictInsert_fresh r _ _ h1,
      ih (r ++ [(monthLabel d.1 d.2, val d)]) ?fresh hnd.2]
    · simp
    case fresh =>
      intro d' hd' p hp
      rcases List.mem_append.mp hp with hp | hp
      · exact hfresh d' (by simp [hd']) p hp
      · have hp1 : p.1 = monthLabel d.1 d.2 := by
          simp only [List.mem_singleton] at hp
          rw [hp]
        rw [hp1]
        intro hc
        exact hnd.1 (hc ▸ List.mem_map.mpr ⟨d', hd', rfl⟩)

/-- Counterexample to claim C8 as stated: over the real registry and a
single month, every entry carries three fields — an `Agency` field, a
`UZA Name` region field and the one month count — not one month count plus
a single region label field and nothing else. -/
theorem claim8_counterexample :
    (CountAllLyftRides SYSTEM_METADATA [] [(2018, 1)]).map (fun e => e.2.map Prod.fst)
      = [["Agency", "UZA Name", "JAN18"], ["Agency", "UZA Name", "JAN18"],
         ["Agency", "UZA Name", "JAN18"], ["Agency", "UZA Name", "JAN18"]] ∧
    (["Agency", "UZA Name", "JAN18"] : List String).length ≠ 1 + 1 := by
  refine ⟨by decide, by decide⟩

/-- Claim C8 as amended: over an empty provider set the table is empty, and
over N providers and M months (with distinct month labels that avoid the
two fixed field names) it has exactly N entries, each holding M count
fields keyed by 3-letter uppercase month abbreviation plus 2-digit year,
one region label field (`UZA Name`) and one agency name field (`Agency`),
and nothing else. -/
theorem claim8_buildTable_shape (registry : List (String × SystemMetadata)) (fs : FS)
    (dates : List (Nat × Nat))
    (hnodup : (dates.map (fun d => monthLabel d.1 d.2)).Nodup)
    (hagency : "Agency" ∉ dates.map (fun d => monthLabel d.1 d.2))
    (huza : "UZA Name" ∉ dates.map (fun d => monthLabel d.1 d.2)) :
    CountAllLyftRides [] fs dates = [] ∧
    (CountAllLyftRides registry fs dates).length = registry.length ∧
    ∀ e ∈ CountAllLyftRides registry fs dates,
      e.2.map Prod.fst
        = "Agency" :: "UZA Name" :: dates.map (fun d => monthLabel d.1 d.2) := by
  refine ⟨rfl, by simp [CountAllLyftRides], ?_⟩
  intro e he
  simp only [CountAllLyftRides, List.mem_map] at he
  obtain ⟨x, hx, rfl⟩ := he
  have hfresh : ∀ d ∈ dates,
      ∀ p ∈ [("Agency", Value.str x.1), ("UZA Name", Value.str x.2.uza)],
      p.1 ≠ monthLabel d.1 d.2 := by
    intro d hd p hp
    have hlab : monthLabel d.1 d.2 ∈ dates.map (fun d => monthLabel d.1 d.2) :=
      List.mem_map.mpr ⟨d, hd, rfl⟩
    simp only [List.mem_cons, List.mem_singleton, List.not_mem_nil, or_false] at hp
    rcases hp with rfl | rfl
    · exact fun hc => hagency
        (by rw [show "Agency" = monthLabel d.1 d.2 from hc]; exact hlab)
    · exact fun hc => huza
        (by rw [show "UZA Name" = monthLabel d.1 d.2 from hc]; exact hlab)
  have hkeys := foldl_dictInsert_keys
    (fun d => Value.int ((CountLyftRides registry fs x.1 d.1 d.2).getD 0)) dates
    [("Agency", Value.str x.1), ("UZA Name", Value.str x.2.uza)] hfresh hnodup
  simpa using hkeys

/-- Witness for the amended C8 over two months and the real registry. -/
theorem claim8_witness :
    CountAllLyftRides [] [] [(2018, 1), (2018, 2)] = [] ∧
    (CountAllLyftRides SYSTEM_METADATA [] [(2018, 1), (2018, 2)]).length = 4 := by
  have h := claim8_buildTable_shape SYSTEM_METADATA [] [(2018, 1), (2018, 2)]
    (by decide) (by decide) (by decide)
  exact ⟨h.1, h.2.1⟩

/-! ### Claim C9: injectivity of the local cache path -/

/-- Claim C9: the mapping from (provider, year, month) to local cache path
is injective — two registry keys with valid months and distinct
(provider, year, month) resolve to distinct local file paths, so no two
cache writes target the same file. -/
theorem claim9_localPath_injective (n1 n2 : String) (md1 md2 : SystemMetadata)
    (y1 m1 y2 m2 : Nat)
    (h1 : alookup SYSTEM_METADATA n1 = some md1)
    (h2 : alookup SYSTEM_METADATA n2 = some md2)
    (hm1 : 1 ≤ m1 ∧ m1 ≤ 12) (hm2 : 1 ≤ m2 ∧ m2 ≤ 12)
    (hne : ¬(n1 = n2 ∧ y1 = y2 ∧ m1 = m2)) :
    lyftLocalPath n1 md1 y1 m1 ≠ lyftLocalPath n2 md2 y2 m2 := by
  intro h
  rcases alookup_SYSTEM_METADATA_cases h1 with ⟨e1, f1⟩ | ⟨e1, f1⟩ | ⟨e1, f1⟩ | ⟨e1, f1⟩ <;>
    rcases alookup_SYSTEM_METADATA_cases h2 with ⟨e2, f2⟩ | ⟨e2, f2⟩ | ⟨e2, f2⟩ | ⟨e2, f2⟩ <;>
    subst e1 <;> subst e2 <;> subst f1 <;> subst f2 <;>
    have hd := congrArg String.data h <;>
    rw [lyftLocalPath_data _ _ _ _ (by decide), lyftLocalPath_data _ _ _ _ (by decide)] at hd <;>
    first
      | exact absurd (take_eq_of_append_eq 12 hd (by decide) (by decide)) (by decide)
      | (obtain ⟨hy, hm⟩ := yearMonth_inj _ (by omega) (by omega)
           (List.append_cancel_left (List.append_cancel_left hd));
         exact hne ⟨rfl, hy, hm⟩)

/-- Witness for C9: two keys differing only in the month map to different
paths. -/
theorem claim9_witness :
    lyftLocalPath "baywheels"
        ⟨"San Francisco Bay Area, CA", "https://s3.amazonaws.com/baywheels-data/",
          "", "-baywheels-tripdata.csv.zip"⟩ 2019 4
      ≠ lyftLocalPath "baywheels"
        ⟨"San Francisco Bay Area, CA", "https://s3.amazonaws.com/baywheels-data/",
          "", "-baywheels-tripdata.csv.zip"⟩ 2019 5 :=
  claim9_localPath_injective "baywheels" "baywheels"
    ⟨"San Francisco Bay Area, CA", "https://s3.amazonaws.com/baywheels-data/",
      "", "-baywheels-tripdata.csv.zip"⟩
    ⟨"San Francisco Bay Area, CA", "https://s3.amazonaws.com/baywheels-data/",
      "", "-baywheels-tripdata.csv.zip"⟩
    2019 4 2019 5 (by decide) (by decide) (by decide) (by decide) (by decide)

end Unicycle
